/-
  Verification of the SveltyCMS authentication/authorization core.

  Shallow embedding of:
  - src/auth/permissionCheck.ts (checkUserPermission, checkForSelfLockout,
    getCachedRolePermissions and the per-role permission cache)
  - config/permissions.ts (PermissionType, PermissionAction)
  - src/auth/mongoDBAuth/mongoDBAuthAdapter (sessions, tokens, roles,
    permissions, checkUserPermission)
  - src/auth/drizzelDBAuth/drizzleAuthAdapter.ts (sessions, tokens)
  - src/auth/index.ts (Auth class: createUser, updateUserAttributes,
    validateSession)
  - src/auth/mongoDBAuth/userAdapter.ts (changePassword)
  - src/databases/mongodb/mongoDBAdapter.ts (connect retry loop)

  Machine times are modelled as Nat milliseconds; `new Date()` / `Date.now()`
  become an explicit `now : Nat` parameter read at call time.  Asynchronous
  adapter calls that may reject become `Except String`.  Stores (mongoose /
  drizzle collections) become lists of records, and each operation is
  explicit state passing.
-/
import Mathlib

namespace SveltyCMS

/-! ### config/permissions.ts -/

/-- `PermissionType` enum from config/permissions.ts. -/
inductive PermissionType where
  | collection
  | user
  | configuration
  | system
  deriving DecidableEq, Repr

/-- `PermissionAction` from src/auth/types: the action strings used by the
permission records (`create`/`read`/`update`/.../`manage_roles`), kept as
plain strings as in the TypeScript source. -/
abbrev PermissionAction := String

/-- `Permission` record (src/auth/types), with the fields consulted by
permissionCheck.ts. -/
structure Permission where
  _id : String
  name : String
  action : PermissionAction
  contextId : String
  contextType : PermissionType
  requiredRole : Option String
  deriving DecidableEq, Repr

/-- `PermissionConfig` interface from src/auth/permissionCheck.ts. -/
structure PermissionConfig where
  _id : String
  name : String
  contextId : String
  action : PermissionAction
  contextType : PermissionType
  requiredRole : Option String
  deriving DecidableEq, Repr

/-- The acting `User` as consulted by permissionCheck.ts (`user.role`,
`user.email`). -/
structure AuthUser where
  email : String
  role : String
  deriving DecidableEq, Repr

/-- `Role` record as returned by `getRoleByName`: a name plus the list of
permission ids assigned to the role (`userRole.permissions`). -/
structure Role where
  name : String
  permissions : List String
  deriving DecidableEq, Repr

/-! ### src/auth/permissionCheck.ts -/

/-- The per-role permission cache (`rolePermissionCache`), a map from role
name to resolved permission list, modelled as an association list. -/
structure CacheState where
  rolePermissionCache : List (String × List Permission)
  deriving DecidableEq, Repr

/-- `rolePermissionCache.has role` / `rolePermissionCache.get role`. -/
def CacheState.get? (st : CacheState) (role : String) : Option (List Permission) :=
  (st.rolePermissionCache.find? (fun e => e.1 == role)).map (·.2)

/-- `rolePermissionCache.set role perms`. -/
def CacheState.set (st : CacheState) (role : String) (perms : List Permission) : CacheState :=
  ⟨(role, perms) :: st.rolePermissionCache.filter (fun e => e.1 != role)⟩

/-- The ambient environment of permissionCheck.ts: whether `authAdapter` is
initialized, the `getAllPermissions()` registry, the role store read by
`authAdapter.getRoleByName`, and whether that backend call rejects. -/
structure AuthEnv where
  adapterInitialized : Bool
  allPermissions : List Permission
  roles : List Role
  backendError : Bool
  deriving DecidableEq, Repr

/-- `authAdapter.getRoleByName(role)`: resolves a role name against the role
store; a backend failure is re-thrown by the adapter (its catch block
re-throws), modelled by `backendError`. -/
def getRoleByName (env : AuthEnv) (name : String) : Except String (Option Role) :=
  if env.backendError then .error "backend failure"
  else .ok (env.roles.find? (fun r => r.name == name))

/-- `getCachedRolePermissions(role)` from src/auth/permissionCheck.ts:
returns the cached list when present; throws when `authAdapter` is not
initialized; otherwise filters `getAllPermissions()` by the permission-id
list of the role, caches the result and returns it.  A missing role
returns `[]` without caching; a backend error propagates (the catch block
logs and re-throws). -/
def getCachedRolePermissions (env : AuthEnv) (st : CacheState) (role : String) :
    Except String (List Permission × CacheState) :=
  match st.get? role with
  | some cached => .ok (cached, st)
  | none =>
    if ¬ env.adapterInitialized then
      .error "Authentication adapter is not initialized."
    else
      match getRoleByName env role with
      | .error e => .error e
      | .ok none => .ok ([], st)
      | .ok (some userRole) =>
        let rolePermissions :=
          env.allPermissions.filter (fun p => userRole.permissions.contains p._id)
        .ok (rolePermissions, st.set role rolePermissions)

/-- `checkForSelfLockout(user, config, userPermissions)` from
src/auth/permissionCheck.ts, verbatim: when `config.requiredRole` is not the
string `admin` and `user.role` equals `config.requiredRole`, true iff every
resolved permission differs from the query in id, action or contextType. -/
def checkForSelfLockout (user : AuthUser) (config : PermissionConfig)
    (userPermissions : List Permission) : Bool :=
  if config.requiredRole ≠ some "admin" ∧ some user.role = config.requiredRole then
    userPermissions.all (fun permission =>
      decide (permission._id ≠ config.contextId ∨ permission.action ≠ config.action ∨
        permission.contextType ≠ config.contextType))
  else
    false

/-- The permission-match predicate inlined in the `userPermissions.some(...)`
call of `checkUserPermission`. -/
def permissionMatches (permission : Permission) (config : PermissionConfig) : Bool :=
  permission._id == config.contextId && permission.action == config.action &&
    (permission.contextType == config.contextType ||
      permission.contextType == PermissionType.system)

/-- Result shape of `checkUserPermission`. -/
structure PermCheckResult where
  hasPermission : Bool
  isRateLimited : Bool
  deriving DecidableEq, Repr

/-- `checkUserPermission(user, config)` from src/auth/permissionCheck.ts.
The whole body sits in a try/catch whose catch block returns
`{hasPermission: false, isRateLimited: false}`, so a thrown resolution
error is swallowed into a deny; the function itself never rejects. -/
def checkUserPermission (env : AuthEnv) (st : CacheState) (user : AuthUser)
    (config : PermissionConfig) : PermCheckResult × CacheState :=
  if user.role == "admin" then
    (⟨true, false⟩, st)
  else if ¬ env.adapterInitialized then
    (⟨false, false⟩, st)
  else
    match getCachedRolePermissions env st user.role with
    | .error _ => (⟨false, false⟩, st)
    | .ok (userPermissions, st') =>
      if checkForSelfLockout user config userPermissions then
        (⟨false, false⟩, st')
      else
        (⟨userPermissions.any (fun p => permissionMatches p config), false⟩, st')

/-! ### MongoDBAuthAdapter (src/auth/mongoDBAuth)

Mongoose collections become lists of records; `new Date()` becomes the
explicit `now : Nat` parameter read at call time; `deleteOne` /
`findOneAndDelete` erase the first matching record. -/

namespace MongoAuth

/-- `String.prototype.toLowerCase()` as used on role names, modelled
character-wise (the role names involved are ASCII). -/
def toLowerStr (s : String) : String := ⟨s.data.map Char.toLower⟩

/-- A permission document (PermissionModel). -/
structure MPermission where
  _id : String
  name : String
  action : PermissionAction
  deriving DecidableEq, Repr

/-- A role document (RoleModel): id, name and the array of permission ids
mutated by `$addToSet` / `$pull`. -/
structure MRole where
  _id : String
  name : String
  permissions : List String
  deriving DecidableEq, Repr

/-- A user document (UserModel) with the fields consulted by the adapter:
role references and direct permission references. -/
structure MUser where
  _id : String
  email : String
  roles : List String
  permissions : List String
  deriving DecidableEq, Repr

/-- A session document (SessionModel). -/
structure MSession where
  session_id : String
  user_id : String
  expires : Nat
  deriving DecidableEq, Repr

/-- A token document (TokenModel). -/
structure MToken where
  token : String
  user_id : String
  email : String
  expires : Nat
  deriving DecidableEq, Repr

/-- The MongoDB store backing the adapter. -/
structure MongoState where
  users : List MUser
  sessions : List MSession
  tokens : List MToken
  roles : List MRole
  permissions : List MPermission
  deriving DecidableEq, Repr

/-- `.populate` of a list of permission ids: resolve ids to documents. -/
def populatePermissions (st : MongoState) (ids : List String) : List MPermission :=
  st.permissions.filter (fun p => ids.contains p._id)

/-- `.populate` of a list of role ids: resolve ids to documents. -/
def populateRoles (st : MongoState) (ids : List String) : List MRole :=
  st.roles.filter (fun r => ids.contains r._id)

/-- `MongoDBAuthAdapter.validateSession(session_id)`: find the session; when
absent, or when `session.expires <= new Date()`, delete the record if it
exists and return null; otherwise return the user bound by `user_id` (null
when that user record is gone). -/
def validateSession (st : MongoState) (now : Nat) (session_id : String) :
    Option MUser × MongoState :=
  match st.sessions.find? (fun s => s.session_id == session_id) with
  | none => (none, st)
  | some s =>
    if s.expires ≤ now then
      (none, { st with sessions := st.sessions.eraseP (fun t => t.session_id == session_id) })
    else
      (st.users.find? (fun u => u._id == s.user_id), st)

/-- `MongoDBAuthAdapter.getActiveSessions(user_id)`: the sessions of the user
with `expires > now`. -/
def getActiveSessions (st : MongoState) (now : Nat) (user_id : String) : List MSession :=
  st.sessions.filter (fun s => s.user_id == user_id && now < s.expires)

/-- Result shape of `validateToken` / `consumeToken` (`success`/`status`
plus `message`). -/
structure TokenStatus where
  status : Bool
  message : String
  deriving DecidableEq, Repr

/-- `MongoDBAuthAdapter.createToken({user_id, email, expires})`: persists a
token with `expires = now + delta`; the random token string produced by
`crypto.randomBytes` is passed in as `tokenString`. -/
def createToken (st : MongoState) (now : Nat) (tokenString user_id email : String)
    (expiresDelta : Nat) : MongoState × String :=
  ({ st with tokens := st.tokens ++ [⟨tokenString, user_id, email, now + expiresDelta⟩] },
    tokenString)

/-- `MongoDBAuthAdapter.validateToken(token, user_id)`: read-only; reports
valid iff `expires > new Date()`, expired otherwise, and a distinct message
when no record matches. -/
def validateToken (st : MongoState) (now : Nat) (token user_id : String) : TokenStatus :=
  match st.tokens.find? (fun t => t.token == token && t.user_id == user_id) with
  | some t =>
    if now < t.expires then ⟨true, "Token is valid"⟩ else ⟨false, "Token is expired"⟩
  | none => ⟨false, "Token does not exist"⟩

/-- `MongoDBAuthAdapter.consumeToken(token, user_id)`: `findOneAndDelete` on
(token, user_id); when a document matched it is removed regardless of expiry
and the status reflects `expires > new Date()` at that moment; otherwise the
store is untouched and the message is that the token does not exist. -/
def consumeToken (st : MongoState) (now : Nat) (token user_id : String) :
    TokenStatus × MongoState :=
  match st.tokens.find? (fun t => t.token == token && t.user_id == user_id) with
  | some t =>
    (if now < t.expires then ⟨true, "Token is valid"⟩ else ⟨false, "Token is expired"⟩,
      { st with tokens := st.tokens.eraseP (fun u => u.token == token && u.user_id == user_id) })
  | none => (⟨false, "Token does not exist"⟩, st)

/-- `MongoDBAuthAdapter.checkUserPermission(user_id, requiredAction)`: false
for a missing user; true when a populated role is named `admin`
(case-insensitively), or a direct permission has the required action, or a
role-derived permission does. -/
def checkUserPermission (st : MongoState) (user_id : String)
    (requiredAction : PermissionAction) : Bool :=
  match st.users.find? (fun u => u._id == user_id) with
  | none => false
  | some user =>
    let roles := populateRoles st user.roles
    if roles.any (fun r => toLowerStr r.name == "admin") then true
    else if (populatePermissions st user.permissions).any (fun p => p.action == requiredAction) then
      true
    else
      roles.any (fun r => (populatePermissions st r.permissions).any
        (fun p => p.action == requiredAction))

/-- `$addToSet`: append the element when not already present. -/
def addToSet (xs : List String) (x : String) : List String :=
  if xs.contains x then xs else xs ++ [x]

/-- `MongoDBAuthAdapter.assignPermissionToRole(role_id, permission_id,
currentUserId)`: rejects the caller unless it holds both `manage_roles` and
`manage_permissions`; rejects when the role or the permission does not
exist; otherwise `$addToSet` the permission id onto the role.  Note: the
per-role permission cache of permissionCheck.ts is not referenced at all. -/
def assignPermissionToRole (st : MongoState) (role_id permission_id currentUserId : String) :
    Except String MongoState :=
  if ¬ (checkUserPermission st currentUserId "manage_roles") ∨
      ¬ (checkUserPermission st currentUserId "manage_permissions") then
    .error "Unauthorized: User does not have permission to assign permissions to roles"
  else if ¬ (st.roles.any (fun r => r._id == role_id)) then
    .error "Role not found"
  else if ¬ (st.permissions.any (fun p => p._id == permission_id)) then
    .error "Permission not found"
  else
    .ok { st with roles := st.roles.map (fun r =>
      if r._id == role_id then { r with permissions := addToSet r.permissions permission_id }
      else r) }

/-- `MongoDBAuthAdapter.removePermissionFromRole(role_id, permission_id,
currentUserId)`: same authorization gate, then `$pull` the permission id
from the role.  The per-role permission cache is again not referenced. -/
def removePermissionFromRole (st : MongoState) (role_id permission_id currentUserId : String) :
    Except String MongoState :=
  if ¬ (checkUserPermission st currentUserId "manage_roles") ∨
      ¬ (checkUserPermission st currentUserId "manage_permissions") then
    .error "Unauthorized: User does not have permission to remove permissions from roles"
  else
    .ok { st with roles := st.roles.map (fun r =>
      if r._id == role_id then { r with permissions := r.permissions.filter (fun p => p != permission_id) }
      else r) }

/-- Project a MongoDB store onto the environment seen by
src/auth/permissionCheck.ts: `getRoleByName` reads the RoleModel collection
(name plus permission-id array); `getAllPermissions()` stays a parameter
(config/permissions.ts keeps the registry contents outside this module and
its body is an explicit placeholder). -/
def toAuthEnv (st : MongoAuth.MongoState) (allPermissions : List Permission) : AuthEnv :=
  { adapterInitialized := true
    allPermissions := allPermissions
    roles := st.roles.map (fun r => ⟨r.name, r.permissions⟩)
    backendError := false }

end MongoAuth

/-! ### DrizzleAuthAdapter (src/auth/drizzelDBAuth/drizzleAuthAdapter.ts)

SQL tables become lists of rows; `CURRENT_TIMESTAMP` becomes the explicit
`now : Nat`; a SQL `DELETE ... WHERE` removes every matching row. -/

namespace DrizzleAuth

/-- A row of the `users` table (fields used by session validation). -/
structure DUser where
  id : String
  email : String
  role : String
  deriving DecidableEq, Repr

/-- A row of the `sessions` table. -/
structure DSession where
  id : String
  userId : String
  expires : Nat
  deriving DecidableEq, Repr

/-- A row of the `tokens` table. -/
structure DToken where
  token : String
  userId : String
  type_ : String
  expires : Nat
  deriving DecidableEq, Repr

/-- The relational store backing the adapter. -/
structure DrizzleState where
  users : List DUser
  sessions : List DSession
  tokens : List DToken
  deriving DecidableEq, Repr

/-- `DrizzleAuthAdapter.validateSession(session_id)`: one SELECT with the
predicate `id = session_id AND expires > CURRENT_TIMESTAMP`; null when no
row qualifies (an expired row simply fails the predicate — nothing is
deleted, the function issues no write), else the user row looked up by
`userId`.  Pure read: the store is unchanged by construction. -/
def validateSession (st : DrizzleState) (now : Nat) (session_id : String) : Option DUser :=
  match st.sessions.find? (fun s => s.id == session_id && now < s.expires) with
  | none => none
  | some s => st.users.find? (fun u => u.id == s.userId)

/-- `DrizzleAuthAdapter.getActiveSessions(user_id)`: rows with matching
`userId` and `expires > CURRENT_TIMESTAMP`. -/
def getActiveSessions (st : DrizzleState) (now : Nat) (user_id : String) : List DSession :=
  st.sessions.filter (fun s => s.userId == user_id && now < s.expires)

/-- `DrizzleAuthAdapter.consumeToken(token, user_id, type)`: DELETE of every
row matching (token, userId, type) RETURNING the deleted row; status valid
iff the deleted row has `expires > new Date()`, expired otherwise, and a
does-not-exist message when nothing matched. -/
def consumeToken (st : DrizzleState) (now : Nat) (token user_id type_ : String) :
    MongoAuth.TokenStatus × DrizzleState :=
  match st.tokens.find? (fun t => t.token == token && t.userId == user_id && t.type_ == type_) with
  | some t =>
    (if now < t.expires then ⟨true, "Token is valid"⟩ else ⟨false, "Token is expired"⟩,
      { st with tokens := st.tokens.filter (fun u =>
        ¬ (u.token == token && u.userId == user_id && u.type_ == type_)) })
  | none => (⟨false, "Token does not exist"⟩, st)

end DrizzleAuth

/-! ### Auth class (src/auth/index.ts) and UserAdapter
(src/auth/mongoDBAuth/userAdapter.ts)

`argon2.hash` with the fixed argon2id attributes is the abstract parameter
`hash`; the mongoose user collection is a list of records. -/

namespace AuthClass

/-- A user record as written by the Auth class (src/auth/index.ts). -/
structure AUser where
  _id : String
  email : String
  password : Option String
  username : String
  role : String
  deriving DecidableEq, Repr

/-- The attribute patch accepted by `updateUserAttributes` (`$set` semantics:
only present fields are written). -/
structure UserAttributes where
  password : Option String
  username : Option String
  deriving DecidableEq, Repr

/-- A session record of the Auth class. -/
structure ASession where
  _id : String
  user_id : String
  expires : Nat
  deriving DecidableEq, Repr

/-- `Auth.createUser({email, password, username, role, ...})`: hashes the
password with argon2 when one is supplied, then inserts the record; the
generated ObjectId is passed in as `id`. -/
def createUser (hash : String → String) (users : List AUser)
    (id email : String) (password : Option String) (username role : String) :
    List AUser × AUser :=
  let user : AUser := ⟨id, email, password.map hash, username, role⟩
  (users ++ [user], user)

/-- `Auth.updateUserAttributes(user, attributes)`: when the patch carries a
password it is replaced by its argon2 hash, then the patch is `$set` onto
the record of the user. -/
def updateUserAttributes (hash : String → String) (users : List AUser)
    (user_id : String) (attributes : UserAttributes) : List AUser :=
  let hashedAttributes : UserAttributes :=
    match attributes.password with
    | some pw => { attributes with password := some (hash pw) }
    | none => attributes
  users.map (fun u =>
    if u._id == user_id then
      { u with
        password := match hashedAttributes.password with
          | some pw => some pw
          | none => u.password
        username := hashedAttributes.username.getD u.username }
    else u)

/-- `Auth.validateSession(session_id)` from src/auth/index.ts: finds the
session, then immediately dereferences `session.user_id` without a null
check — an absent session makes the call reject with a TypeError.  No
expiry comparison appears anywhere in the body, and nothing is deleted;
null is returned only when the session exists but the referenced user
record does not. -/
def validateSession (sessions : List ASession) (users : List AUser)
    (session_id : String) : Except String (Option AUser) :=
  match sessions.find? (fun s => s._id == session_id) with
  | none => .error "TypeError: cannot read user_id of null"
  | some session =>
    match users.find? (fun u => u._id == session.user_id) with
    | none => .ok none
    | some user => .ok (some user)

/-- `UserAdapter.changePassword(user_id, newPassword)` from
src/auth/mongoDBAuth/userAdapter.ts: `findByIdAndUpdate(user_id,
{ password: newPassword })` — the supplied string is written to the
password field verbatim; no hashing call appears in the body. -/
def changePassword (users : List AUser) (user_id newPassword : String) : List AUser :=
  users.map (fun u =>
    if u._id == user_id then { u with password := some newPassword } else u)

end AuthClass

/-! ### MongoDBAdapter.connect (src/databases/mongodb/mongoDBAdapter.ts) -/

namespace MongoDBAdapter

/-- The retry loop of `MongoDBAdapter.connect(attempts)`.  `outcomes i`
tells whether the i-th `mongoose.connect` call succeeds (network behaviour
is the environment).  Mirrors the source: while attempts remain, try once;
on success return; on failure decrement, and when no attempts remain raise
the fatal error, else wait `DB_RETRY_DELAY` (time abstracted away) and
loop.  Returns the outcome together with the number of connection attempts
made.  A budget of 0 skips the loop and falls through (the JS function
returns undefined without attempting). -/
def connectAux (outcomes : Nat → Bool) (idx : Nat) : Nat → Except String Unit × Nat
  | 0 => (.ok (), 0)
  | n + 1 =>
    if outcomes idx then (.ok (), 1)
    else if n = 0 then
      (.error "Failed to connect to the database after maximum retries.", 1)
    else
      ((connectAux outcomes (idx + 1) n).1, (connectAux outcomes (idx + 1) n).2 + 1)

/-- `MongoDBAdapter.connect(attempts)` with the default budget
`DB_RETRY_ATTEMPTS || 3` supplied explicitly. -/
def connect (outcomes : Nat → Bool) (attempts : Nat) : Except String Unit × Nat :=
  connectAux outcomes 0 attempts

end MongoDBAdapter

/-! ### Helper lemmas -/

/-- A cache hit returns the cached list and leaves the cache unchanged,
whatever the environment currently holds. -/
theorem getCachedRolePermissions_cache_hit (env : AuthEnv) (st : CacheState)
    (role : String) (cached : List Permission) (h : st.get? role = some cached) :
    getCachedRolePermissions env st role = .ok (cached, st) := by
  unfold getCachedRolePermissions
  rw [h]

/-! ### Claim theorems -/

/-- C2: a user whose role is the reserved super-authority role `admin` is
granted every permission query unconditionally: `checkUserPermission`
returns `hasPermission = true` for any environment (even an uninitialized
or failing adapter) and any query, leaving the cache untouched; likewise
the adapter-level `MongoDBAuthAdapter.checkUserPermission` returns true for
any required action as soon as one of the populated roles of the user is
named `admin`, never consulting the permission sets. -/
theorem admin_bypass_unconditional :
    (∀ (env : AuthEnv) (st : CacheState) (user : AuthUser) (config : PermissionConfig),
      user.role = "admin" →
      checkUserPermission env st user config = (⟨true, false⟩, st)) ∧
    (∀ (st : MongoAuth.MongoState) (uid : String) (action : PermissionAction)
        (u : MongoAuth.MUser),
      st.users.find? (fun x => x._id == uid) = some u →
      (MongoAuth.populateRoles st u.roles).any
        (fun r => MongoAuth.toLowerStr r.name == "admin") = true →
      MongoAuth.checkUserPermission st uid action = true) := by
  constructor
  · intro env st user config h
    simp [checkUserPermission, h]
  · intro st uid action u hu hadm
    simp [MongoAuth.checkUserPermission, hu, hadm]

/-- Witness for C2 at a concrete admin principal. -/
theorem admin_bypass_unconditional_witness :
    checkUserPermission ⟨false, [], [], true⟩ ⟨[]⟩ ⟨"a@x.com", "admin"⟩
        ⟨"c1", "n", "ctx", "read", PermissionType.collection, none⟩ =
      (⟨true, false⟩, ⟨[]⟩) ∧
    MongoAuth.checkUserPermission
        ⟨[⟨"admin1", "a@x.com", ["r-admin"], []⟩], [], [], [⟨"r-admin", "admin", []⟩], []⟩
        "admin1" "manage_roles" = true :=
  ⟨admin_bypass_unconditional.1 _ _ _ _ rfl,
    admin_bypass_unconditional.2 _ _ _ ⟨"admin1", "a@x.com", ["r-admin"], []⟩
      (by decide) (by decide)⟩

/-- C6: for the non-admin path, a resolved permission satisfies the query
iff its id equals the contextId of the query, its action equals the action
of the query, and its contextType matches exactly or is the universal
`system` category; and when no admin bypass, no resolution failure and no
self-lockout applies, `checkUserPermission` grants exactly when some
resolved permission satisfies this predicate. -/
theorem permission_match_characterization :
    (∀ (p : Permission) (config : PermissionConfig),
      permissionMatches p config = true ↔
        (p._id = config.contextId ∧ p.action = config.action ∧
          (p.contextType = config.contextType ∨ p.contextType = PermissionType.system))) ∧
    (∀ (env : AuthEnv) (st : CacheState) (user : AuthUser) (config : PermissionConfig)
        (perms : List Permission) (st' : CacheState),
      user.role ≠ "admin" →
      env.adapterInitialized = true →
      getCachedRolePermissions env st user.role = .ok (perms, st') →
      checkForSelfLockout user config perms = false →
      checkUserPermission env st user config =
        (⟨perms.any (fun p => permissionMatches p config), false⟩, st')) := by
  constructor
  · intro p config
    simp [permissionMatches, and_assoc]
  · intro env st user config perms st' hrole hinit hres hlock
    simp only [checkUserPermission, hinit, hres, hlock]
    simp [hrole]

/-- Witness for C6 at a concrete non-admin query. -/
theorem permission_match_characterization_witness :
    permissionMatches ⟨"c1", "n", "read", "c1", PermissionType.system, none⟩
        ⟨"c1", "q", "c1", "read", PermissionType.collection, none⟩ = true ∧
    checkUserPermission ⟨true, [], [], false⟩ ⟨[]⟩ ⟨"u@x.com", "editor"⟩
        ⟨"c1", "q", "c1", "read", PermissionType.collection, none⟩ =
      (⟨List.any [] (fun p => permissionMatches p
        ⟨"c1", "q", "c1", "read", PermissionType.collection, none⟩), false⟩, ⟨[]⟩) :=
  ⟨(permission_match_characterization.1 _ _).mpr (by simp),
    permission_match_characterization.2 ⟨true, [], [], false⟩ ⟨[]⟩ _ _ [] ⟨[]⟩
      (by decide) rfl rfl rfl⟩

/-- C7 counterexample: with the adapter initialized but the backend
failing, `getCachedRolePermissions` does raise, yet `checkUserPermission`
returns the deny decision `{hasPermission := false, isRateLimited := false}`
instead of propagating the raised error — the claimed propagation to the
caller of `checkUserPermission` does not happen. -/
theorem resolution_error_swallowed_counterexample :
    getCachedRolePermissions ⟨true, [], [], true⟩ ⟨[]⟩ "user" = .error "backend failure" ∧
    checkUserPermission ⟨true, [], [], true⟩ ⟨[]⟩ ⟨"u@x.com", "user"⟩
        ⟨"c1", "n", "ctx", "read", PermissionType.collection, none⟩ =
      (⟨false, false⟩, ⟨[]⟩) :=
  ⟨rfl, rfl⟩

/-- C7 amended: `getCachedRolePermissions` re-raises resolution failures,
but `checkUserPermission` catches every raised error and returns
`{hasPermission := false, isRateLimited := false}` — a silent deny with the
cache unchanged — rather than propagating the failure to its caller. -/
theorem resolution_error_swallowed :
    (∀ (env : AuthEnv) (st : CacheState) (role : String),
      st.get? role = none →
      env.adapterInitialized = true →
      env.backendError = true →
      getCachedRolePermissions env st role = .error "backend failure") ∧
    (∀ (env : AuthEnv) (st : CacheState) (user : AuthUser) (config : PermissionConfig)
        (e : String),
      user.role ≠ "admin" →
      env.adapterInitialized = true →
      getCachedRolePermissions env st user.role = .error e →
      checkUserPermission env st user config = (⟨false, false⟩, st)) := by
  constructor
  · intro env st role hmiss hinit hfail
    simp [getCachedRolePermissions, getRoleByName, hmiss, hinit, hfail]
  · intro env st user config e hrole hinit herr
    simp only [checkUserPermission, hinit, herr]
    simp [hrole]

/-- Witness for C7 amended at a concrete failing backend. -/
theorem resolution_error_swallowed_witness :
    getCachedRolePermissions ⟨true, [], [], true⟩ ⟨[]⟩ "editor" = .error "backend failure" ∧
    checkUserPermission ⟨true, [], [], true⟩ ⟨[]⟩ ⟨"u@x.com", "editor"⟩
        ⟨"c1", "n", "ctx", "read", PermissionType.collection, none⟩ =
      (⟨false, false⟩, ⟨[]⟩) :=
  ⟨resolution_error_swallowed.1 ⟨true, [], [], true⟩ ⟨[]⟩ "editor" rfl rfl rfl,
    resolution_error_swallowed.2 ⟨true, [], [], true⟩ ⟨[]⟩ _ _ "backend failure"
      (by decide) rfl rfl⟩

/-- C3: for a non-admin user whose role equals the `requiredRole` of the
query, when the resolved permission set holds no permission agreeing with
the query on the (contextId, action, contextType) triple, the self-lockout
guard fires and `checkUserPermission` denies, whatever the wildcard matcher
would later have said. -/
theorem self_lockout_denied (env : AuthEnv) (st : CacheState) (user : AuthUser)
    (config : PermissionConfig) (perms : List Permission) (st' : CacheState)
    (hrole : user.role ≠ "admin")
    (hinit : env.adapterInitialized = true)
    (hres : getCachedRolePermissions env st user.role = .ok (perms, st'))
    (hreq : some user.role = config.requiredRole)
    (hnone : ∀ p ∈ perms, ¬ (p._id = config.contextId ∧ p.action = config.action ∧
      p.contextType = config.contextType)) :
    checkUserPermission env st user config = (⟨false, false⟩, st') := by
  have hne : config.requiredRole ≠ some "admin" := by
    intro hcontra
    rw [hcontra] at hreq
    exact hrole (Option.some.inj hreq)
  have hlock : checkForSelfLockout user config perms = true := by
    unfold checkForSelfLockout
    rw [if_pos ⟨hne, hreq⟩, List.all_eq_true]
    intro p hp
    have := hnone p hp
    simp only [decide_eq_true_eq]
    tauto
  simp only [checkUserPermission, hinit, hres, hlock]
  simp [hrole]

/-- Witness for C3: a user of role `editor` issuing an editor-scoped query
on an empty resolved set is denied by the lockout guard. -/
theorem self_lockout_denied_witness :
    checkUserPermission ⟨true, [], [], false⟩ ⟨[]⟩ ⟨"u@x.com", "editor"⟩
        ⟨"c1", "q", "c1", "manage", PermissionType.collection, some "editor"⟩ =
      (⟨false, false⟩, ⟨[]⟩) :=
  self_lockout_denied ⟨true, [], [], false⟩ ⟨[]⟩ ⟨"u@x.com", "editor"⟩
    ⟨"c1", "q", "c1", "manage", PermissionType.collection, some "editor"⟩ [] ⟨[]⟩
    (by decide) rfl rfl rfl (by simp)

/-- C8: `UserAdapter.changePassword` writes the caller-supplied string to
the password field verbatim — the record afterwards holds the raw value,
not a hash — whereas `Auth.createUser` does apply the hash function to the
same plaintext before persisting.  Evaluates the code at the failing input
of the claim. -/
theorem changePassword_stores_plaintext :
    AuthClass.changePassword [⟨"u1", "a@x.com", some "oldhash", "a", "user"⟩]
        "u1" "plain-secret" =
      [⟨"u1", "a@x.com", some "plain-secret", "a", "user"⟩] ∧
    (AuthClass.createUser (fun s => String.append "argon2id:" s) [] "u2" "b@x.com"
        (some "plain-secret") "b" "user").2.password = some "argon2id:plain-secret" :=
  ⟨rfl, rfl⟩

/-- C1 counterexample: a session store holding session s1 expired at time 5
still validates at time 10 through `Auth.validateSession` of
src/auth/index.ts — the bound user is returned instead of null and nothing
is deleted, because that implementation never consults `expires`. -/
theorem expired_session_lazy_delete_counterexample :
    (5 : Nat) ≤ 10 ∧
    AuthClass.validateSession [⟨"s1", "u1", 5⟩]
        [⟨"u1", "a@x.com", some "h", "a", "user"⟩] "s1" =
      .ok (some ⟨"u1", "a@x.com", some "h", "a", "user"⟩) :=
  ⟨by omega, rfl⟩

/-- C1 amended: `MongoDBAuthAdapter.validateSession` returns null for a
session with `expires <= now` and erases the record in the same call, after
which `getActiveSessions` excludes it; `DrizzleAuthAdapter.validateSession`
returns null for such a session but is a pure read and deletes nothing
(its `getActiveSessions` still filters the expired row out);
`Auth.validateSession` of src/auth/index.ts performs no expiry check at all
and returns the bound user even when `expires <= now`. -/
theorem expired_session_lazy_delete :
    (∀ (st : MongoAuth.MongoState) (now : Nat) (sid : String) (s : MongoAuth.MSession),
      st.sessions.find? (fun t => t.session_id == sid) = some s →
      s.expires ≤ now →
      MongoAuth.validateSession st now sid =
        (none, { st with sessions := st.sessions.eraseP (fun t => t.session_id == sid) })) ∧
    (∀ (st : MongoAuth.MongoState) (now : Nat) (sid : String) (s : MongoAuth.MSession),
      s.expires ≤ now →
      s ∉ MongoAuth.getActiveSessions (MongoAuth.validateSession st now sid).2 now s.user_id) ∧
    (∀ (st : DrizzleAuth.DrizzleState) (now : Nat) (sid : String),
      (∀ t ∈ st.sessions, t.id = sid → t.expires ≤ now) →
      DrizzleAuth.validateSession st now sid = none) ∧
    (∀ (sessions : List AuthClass.ASession) (users : List AuthClass.AUser) (sid : String)
        (s : AuthClass.ASession) (u : AuthClass.AUser) (now : Nat),
      sessions.find? (fun t => t._id == sid) = some s →
      users.find? (fun x => x._id == s.user_id) = some u →
      s.expires ≤ now →
      AuthClass.validateSession sessions users sid = .ok (some u)) := by
  refine ⟨?_, ?_, ?_, ?_⟩
  · intro st now sid s hfind hexp
    simp only [MongoAuth.validateSession, hfind]
    rw [if_pos hexp]
  · intro st now sid s hexp hmem
    rw [MongoAuth.getActiveSessions, List.mem_filter] at hmem
    have := hmem.2
    simp only [Bool.and_eq_true, decide_eq_true_eq] at this
    omega
  · intro st now sid hall
    have hnone : st.sessions.find? (fun s => s.id == sid && decide (now < s.expires)) = none := by
      rw [List.find?_eq_none]
      intro t ht
      simp only [Bool.and_eq_true, beq_iff_eq, decide_eq_true_eq, not_and]
      intro hid
      exact Nat.not_lt.mpr (hall t ht hid)
    simp [DrizzleAuth.validateSession, hnone]
  · intro sessions users sid s u now hs hu _
    simp [AuthClass.validateSession, hs, hu]

/-- Witness for C1 amended at a concrete store: one session expired at 5,
examined at time 10 against all three implementations. -/
theorem expired_session_lazy_delete_witness :
    MongoAuth.validateSession ⟨[], [⟨"s1", "u1", 5⟩], [], [], []⟩ 10 "s1" =
      (none, ⟨[], [], [], [], []⟩) ∧
    (⟨"s1", "u1", 5⟩ : MongoAuth.MSession) ∉
      MongoAuth.getActiveSessions
        (MongoAuth.validateSession ⟨[], [⟨"s1", "u1", 5⟩], [], [], []⟩ 10 "s1").2 10 "u1" ∧
    DrizzleAuth.validateSession ⟨[], [⟨"s1", "u1", 5⟩], []⟩ 10 "s1" = none ∧
    AuthClass.validateSession [⟨"s1", "u1", 5⟩]
        [⟨"u1", "a@x.com", some "h", "a", "user"⟩] "s1" =
      .ok (some ⟨"u1", "a@x.com", some "h", "a", "user"⟩) :=
  ⟨expired_session_lazy_delete.1 ⟨[], [⟨"s1", "u1", 5⟩], [], [], []⟩ 10 "s1"
      ⟨"s1", "u1", 5⟩ rfl (by decide),
    expired_session_lazy_delete.2.1 ⟨[], [⟨"s1", "u1", 5⟩], [], [], []⟩ 10 "s1"
      ⟨"s1", "u1", 5⟩ (by decide),
    expired_session_lazy_delete.2.2.1 ⟨[], [⟨"s1", "u1", 5⟩], []⟩ 10 "s1" (by decide),
    expired_session_lazy_delete.2.2.2 [⟨"s1", "u1", 5⟩]
      [⟨"u1", "a@x.com", some "h", "a", "user"⟩] "s1" ⟨"s1", "u1", 5⟩
      ⟨"u1", "a@x.com", some "h", "a", "user"⟩ 10 rfl rfl (by decide)⟩

/-- C5 counterexample: role `editor` starts with permission `p1`; a read
populates the per-role cache; `removePermissionFromRole` then strips `p1`
from the role without touching the cache, and the next read still returns
the stale pre-mutation list `[p1]` — while a read through an empty cache
shows the registry now grants nothing to `editor`. -/
theorem cache_stale_after_mutation_counterexample :
    MongoAuth.removePermissionFromRole
        ⟨[⟨"admin1", "a@x.com", ["r-admin"], []⟩], [], [],
          [⟨"r-admin", "admin", []⟩, ⟨"r-editor", "editor", ["p1"]⟩],
          [⟨"p1", "read_content", "read"⟩]⟩ "r-editor" "p1" "admin1" =
      .ok ⟨[⟨"admin1", "a@x.com", ["r-admin"], []⟩], [], [],
        [⟨"r-admin", "admin", []⟩, ⟨"r-editor", "editor", []⟩],
        [⟨"p1", "read_content", "read"⟩]⟩ ∧
    getCachedRolePermissions
        (MongoAuth.toAuthEnv
          ⟨[⟨"admin1", "a@x.com", ["r-admin"], []⟩], [], [],
            [⟨"r-admin", "admin", []⟩, ⟨"r-editor", "editor", []⟩],
            [⟨"p1", "read_content", "read"⟩]⟩
          [⟨"p1", "read_content", "read", "global", PermissionType.collection, none⟩])
        ⟨[("editor", [⟨"p1", "read_content", "read", "global", PermissionType.collection, none⟩])]⟩
        "editor" =
      .ok ([⟨"p1", "read_content", "read", "global", PermissionType.collection, none⟩],
        ⟨[("editor", [⟨"p1", "read_content", "read", "global", PermissionType.collection, none⟩])]⟩) ∧
    getCachedRolePermissions
        (MongoAuth.toAuthEnv
          ⟨[⟨"admin1", "a@x.com", ["r-admin"], []⟩], [], [],
            [⟨"r-admin", "admin", []⟩, ⟨"r-editor", "editor", []⟩],
            [⟨"p1", "read_content", "read"⟩]⟩
          [⟨"p1", "read_content", "read", "global", PermissionType.collection, none⟩])
        ⟨[]⟩ "editor" =
      .ok ([], ⟨[("editor", [])]⟩) :=
  ⟨rfl, rfl, rfl⟩

/-- C5 amended: the mutating registry operations
`assignPermissionToRole` / `removePermissionFromRole` never clear or update
the per-role permission cache of permissionCheck.ts; a read performed after
a successful mutation that hits the cache returns the cached pre-mutation
permission list unchanged, whatever the registry now holds. -/
theorem cache_stale_after_mutation :
    (∀ (st : MongoAuth.MongoState) (role_id pid uid : String) (st2 : MongoAuth.MongoState),
      MongoAuth.assignPermissionToRole st role_id pid uid = .ok st2 →
      ∀ (cache : CacheState) (role : String) (cached allPerms : List Permission),
        cache.get? role = some cached →
        getCachedRolePermissions (MongoAuth.toAuthEnv st2 allPerms) cache role =
          .ok (cached, cache)) ∧
    (∀ (st : MongoAuth.MongoState) (role_id pid uid : String) (st2 : MongoAuth.MongoState),
      MongoAuth.removePermissionFromRole st role_id pid uid = .ok st2 →
      ∀ (cache : CacheState) (role : String) (cached allPerms : List Permission),
        cache.get? role = some cached →
        getCachedRolePermissions (MongoAuth.toAuthEnv st2 allPerms) cache role =
          .ok (cached, cache)) :=
  ⟨fun _ _ _ _ st2 _ cache role cached allPerms hc =>
      getCachedRolePermissions_cache_hit (MongoAuth.toAuthEnv st2 allPerms) cache role cached hc,
    fun _ _ _ _ st2 _ cache role cached allPerms hc =>
      getCachedRolePermissions_cache_hit (MongoAuth.toAuthEnv st2 allPerms) cache role cached hc⟩

/-- Witness for C5 amended: the concrete mutation of the counterexample
followed by a cache-hitting read returning the stale list. -/
theorem cache_stale_after_mutation_witness :
    getCachedRolePermissions
        (MongoAuth.toAuthEnv
          ⟨[⟨"admin1", "a@x.com", ["r-admin"], []⟩], [], [],
            [⟨"r-admin", "admin", []⟩, ⟨"r-editor", "editor", []⟩],
            [⟨"p1", "read_content", "read"⟩]⟩
          [⟨"p1", "read_content", "read", "global", PermissionType.collection, none⟩])
        ⟨[("editor", [⟨"p1", "read_content", "read", "global", PermissionType.collection, none⟩])]⟩
        "editor" =
      .ok ([⟨"p1", "read_content", "read", "global", PermissionType.collection, none⟩],
        ⟨[("editor", [⟨"p1", "read_content", "read", "global", PermissionType.collection, none⟩])]⟩) :=
  cache_stale_after_mutation.2
    ⟨[⟨"admin1", "a@x.com", ["r-admin"], []⟩], [], [],
      [⟨"r-admin", "admin", []⟩, ⟨"r-editor", "editor", ["p1"]⟩],
      [⟨"p1", "read_content", "read"⟩]⟩ "r-editor" "p1" "admin1"
    ⟨[⟨"admin1", "a@x.com", ["r-admin"], []⟩], [], [],
      [⟨"r-admin", "admin", []⟩, ⟨"r-editor", "editor", []⟩],
      [⟨"p1", "read_content", "read"⟩]⟩ rfl
    ⟨[("editor", [⟨"p1", "read_content", "read", "global", PermissionType.collection, none⟩])]⟩
    "editor" [⟨"p1", "read_content", "read", "global", PermissionType.collection, none⟩]
    [⟨"p1", "read_content", "read", "global", PermissionType.collection, none⟩] rfl

/-- C4: `consumeToken` is a combined read+delete.  In both adapters a
matching record is erased from the store regardless of expiry, and the
returned status distinguishes exactly the three outcomes: no record
(does-not-exist, status false), record with `expires <= now` (expired,
status false, record deleted anyway) and record with `expires > now`
(valid, status true); a token just created with ttl 0 is therefore deleted
on consumption and reported expired. -/
theorem consumeToken_read_delete :
    (∀ (st : MongoAuth.MongoState) (now : Nat) (token uid : String),
      st.tokens.find? (fun x => x.token == token && x.user_id == uid) = none →
      MongoAuth.consumeToken st now token uid = (⟨false, "Token does not exist"⟩, st)) ∧
    (∀ (st : MongoAuth.MongoState) (now : Nat) (token uid : String) (t : MongoAuth.MToken),
      st.tokens.find? (fun x => x.token == token && x.user_id == uid) = some t →
      t.expires ≤ now →
      MongoAuth.consumeToken st now token uid =
        (⟨false, "Token is expired"⟩,
          { st with tokens := st.tokens.eraseP (fun x => x.token == token && x.user_id == uid) })) ∧
    (∀ (st : MongoAuth.MongoState) (now : Nat) (token uid : String) (t : MongoAuth.MToken),
      st.tokens.find? (fun x => x.token == token && x.user_id == uid) = some t →
      now < t.expires →
      MongoAuth.consumeToken st now token uid =
        (⟨true, "Token is valid"⟩,
          { st with tokens := st.tokens.eraseP (fun x => x.token == token && x.user_id == uid) })) ∧
    (∀ (st : MongoAuth.MongoState) (now : Nat) (tokenString uid email : String),
      st.tokens.find? (fun x => x.token == tokenString && x.user_id == uid) = none →
      MongoAuth.consumeToken (MongoAuth.createToken st now tokenString uid email 0).1
          now tokenString uid =
        (⟨false, "Token is expired"⟩, st)) ∧
    (∀ (st : DrizzleAuth.DrizzleState) (now : Nat) (token uid ty : String),
      st.tokens.find? (fun x => x.token == token && x.userId == uid && x.type_ == ty) = none →
      DrizzleAuth.consumeToken st now token uid ty = (⟨false, "Token does not exist"⟩, st)) ∧
    (∀ (st : DrizzleAuth.DrizzleState) (now : Nat) (token uid ty : String)
        (t : DrizzleAuth.DToken),
      st.tokens.find? (fun x => x.token == token && x.userId == uid && x.type_ == ty) = some t →
      t.expires ≤ now →
      DrizzleAuth.consumeToken st now token uid ty =
        (⟨false, "Token is expired"⟩,
          { st with tokens := st.tokens.filter (fun x =>
            ¬ (x.token == token && x.userId == uid && x.type_ == ty)) })) ∧
    (∀ (st : DrizzleAuth.DrizzleState) (now : Nat) (token uid ty : String)
        (t : DrizzleAuth.DToken),
      st.tokens.find? (fun x => x.token == token && x.userId == uid && x.type_ == ty) = some t →
      now < t.expires →
      DrizzleAuth.consumeToken st now token uid ty =
        (⟨true, "Token is valid"⟩,
          { st with tokens := st.tokens.filter (fun x =>
            ¬ (x.token == token && x.userId == uid && x.type_ == ty)) })) := by
  refine ⟨?_, ?_, ?_, ?_, ?_, ?_, ?_⟩
  · intro st now token uid h
    simp [MongoAuth.consumeToken, h]
  · intro st now token uid t h hexp
    simp only [MongoAuth.consumeToken, h]
    rw [if_neg (Nat.not_lt.mpr hexp)]
  · intro st now token uid t h hval
    simp only [MongoAuth.consumeToken, h]
    rw [if_pos hval]
  · intro st now tokenString uid email h
    have hall := List.find?_eq_none.mp h
    have hfind :
        ((MongoAuth.createToken st now tokenString uid email 0).1).tokens.find?
          (fun x => x.token == tokenString && x.user_id == uid) =
        some ⟨tokenString, uid, email, now + 0⟩ := by
      simp only [MongoAuth.createToken, List.find?_append, h]
      simp
    simp only [MongoAuth.consumeToken, hfind]
    rw [if_neg (by omega)]
    have herase :
        ((MongoAuth.createToken st now tokenString uid email 0).1).tokens.eraseP
          (fun x => x.token == tokenString && x.user_id == uid) = st.tokens := by
      simp only [MongoAuth.createToken]
      rw [List.eraseP_append_right _ hall]
      simp
    rw [herase]
    simp [MongoAuth.createToken]
  · intro st now token uid ty h
    simp [DrizzleAuth.consumeToken, h]
  · intro st now token uid ty t h hexp
    simp only [DrizzleAuth.consumeToken, h]
    rw [if_neg (Nat.not_lt.mpr hexp)]
  · intro st now token uid ty t h hval
    simp only [DrizzleAuth.consumeToken, h]
    rw [if_pos hval]

/-- Witness for C4 at concrete stores holding one token expiring at 100, in
both adapters: consumption at 99 is valid, at 100 expired, and in both
cases the record is gone from the store; an unknown token reports
does-not-exist and leaves the store unchanged; a ttl-0 token is consumed as
expired. -/
theorem consumeToken_read_delete_witness :
    MongoAuth.consumeToken ⟨[], [], [⟨"t1", "u1", "e", 100⟩], [], []⟩ 99 "t1" "u1" =
      (⟨true, "Token is valid"⟩, ⟨[], [], [], [], []⟩) ∧
    MongoAuth.consumeToken ⟨[], [], [⟨"t1", "u1", "e", 100⟩], [], []⟩ 100 "t1" "u1" =
      (⟨false, "Token is expired"⟩, ⟨[], [], [], [], []⟩) ∧
    MongoAuth.consumeToken ⟨[], [], [⟨"t1", "u1", "e", 100⟩], [], []⟩ 99 "t2" "u1" =
      (⟨false, "Token does not exist"⟩, ⟨[], [], [⟨"t1", "u1", "e", 100⟩], [], []⟩) ∧
    MongoAuth.consumeToken (MongoAuth.createToken ⟨[], [], [], [], []⟩ 7 "t9" "u1" "e" 0).1
        7 "t9" "u1" =
      (⟨false, "Token is expired"⟩, ⟨[], [], [], [], []⟩) ∧
    DrizzleAuth.consumeToken ⟨[], [], [⟨"t1", "u1", "reset", 100⟩]⟩ 99 "t1" "u1" "reset" =
      (⟨true, "Token is valid"⟩, ⟨[], [], []⟩) ∧
    DrizzleAuth.consumeToken ⟨[], [], [⟨"t1", "u1", "reset", 100⟩]⟩ 100 "t1" "u1" "reset" =
      (⟨false, "Token is expired"⟩, ⟨[], [], []⟩) ∧
    DrizzleAuth.consumeToken ⟨[], [], [⟨"t1", "u1", "reset", 100⟩]⟩ 99 "t2" "u1" "reset" =
      (⟨false, "Token does not exist"⟩, ⟨[], [], [⟨"t1", "u1", "reset", 100⟩]⟩) :=
  ⟨consumeToken_read_delete.2.2.1 ⟨[], [], [⟨"t1", "u1", "e", 100⟩], [], []⟩ 99 "t1" "u1"
      ⟨"t1", "u1", "e", 100⟩ rfl (by decide),
    consumeToken_read_delete.2.1 ⟨[], [], [⟨"t1", "u1", "e", 100⟩], [], []⟩ 100 "t1" "u1"
      ⟨"t1", "u1", "e", 100⟩ rfl (by decide),
    consumeToken_read_delete.1 ⟨[], [], [⟨"t1", "u1", "e", 100⟩], [], []⟩ 99 "t2" "u1" rfl,
    consumeToken_read_delete.2.2.2.1 ⟨[], [], [], [], []⟩ 7 "t9" "u1" "e" rfl,
    consumeToken_read_delete.2.2.2.2.2.2 ⟨[], [], [⟨"t1", "u1", "reset", 100⟩]⟩ 99
      "t1" "u1" "reset" ⟨"t1", "u1", "reset", 100⟩ rfl (by decide),
    consumeToken_read_delete.2.2.2.2.2.1 ⟨[], [], [⟨"t1", "u1", "reset", 100⟩]⟩ 100
      "t1" "u1" "reset" ⟨"t1", "u1", "reset", 100⟩ rfl (by decide),
    consumeToken_read_delete.2.2.2.2.1 ⟨[], [], [⟨"t1", "u1", "reset", 100⟩]⟩ 99
      "t2" "u1" "reset" rfl⟩

/-- Attempt-count bound for the retry loop: a budget of n makes at most n
connection attempts, wherever the loop starts. -/
theorem connectAux_attempts_le (outcomes : Nat → Bool) :
    ∀ (n idx : Nat), (MongoDBAdapter.connectAux outcomes idx n).2 ≤ n := by
  intro n
  induction n with
  | zero => intro idx; simp [MongoDBAdapter.connectAux]
  | succ m ih =>
    intro idx
    unfold MongoDBAdapter.connectAux
    by_cases h : outcomes idx
    · simp [h]
    · by_cases hm : m = 0
      · simp [h, hm]
      · simp only [h, Bool.false_eq_true, if_false, if_neg hm]
        show (MongoDBAdapter.connectAux outcomes (idx + 1) m).2 + 1 ≤ m + 1
        have := ih (idx + 1)
        omega

/-- When every connection attempt fails, the retry loop makes exactly n
attempts and ends in the fatal error, for any positive budget n. -/
theorem connectAux_all_fail (outcomes : Nat → Bool) (hf : ∀ i, outcomes i = false) :
    ∀ (n idx : Nat), 1 ≤ n →
      MongoDBAdapter.connectAux outcomes idx n =
        (.error "Failed to connect to the database after maximum retries.", n) := by
  intro n
  induction n with
  | zero => intro idx h; omega
  | succ m ih =>
    intro idx _
    unfold MongoDBAdapter.connectAux
    rw [hf idx]
    by_cases hm : m = 0
    · simp [hm]
    · have hrec := ih (idx + 1) (by omega)
      simp only [if_neg hm, hrec]
      simp

/-- C9: `MongoDBAdapter.connect` with attempt budget n terminates after at
most n connection attempts, and when every attempt fails it raises the
fatal maximum-retries error after exactly the n-th failed attempt instead
of retrying further. -/
theorem connect_bounded_fatal :
    (∀ (outcomes : Nat → Bool) (n : Nat),
      (MongoDBAdapter.connect outcomes n).2 ≤ n) ∧
    (∀ (outcomes : Nat → Bool) (n : Nat), 1 ≤ n → (∀ i, outcomes i = false) →
      MongoDBAdapter.connect outcomes n =
        (.error "Failed to connect to the database after maximum retries.", n)) :=
  ⟨fun outcomes n => connectAux_attempts_le outcomes n 0,
    fun outcomes n hn hf => connectAux_all_fail outcomes hf n 0 hn⟩

/-- Witness for C9 with the default budget of 3 and a permanently failing
backend: three attempts, then the fatal error. -/
theorem connect_bounded_fatal_witness :
    (MongoDBAdapter.connect (fun _ => false) 3).2 ≤ 3 ∧
    MongoDBAdapter.connect (fun _ => false) 3 =
      (.error "Failed to connect to the database after maximum retries.", 3) :=
  ⟨connect_bounded_fatal.1 (fun _ => false) 3,
    connect_bounded_fatal.2 (fun _ => false) 3 (by omega) (fun _ => rfl)⟩

/-- C10: `Auth.validateSession` of src/auth/index.ts never returns null for
an absent session — it rejects with the TypeError raised by dereferencing
the null lookup result — and it returns null exactly when the session
record exists but the referenced user record does not. -/
theorem auth_validateSession_absent_rejects :
    (∀ (sessions : List AuthClass.ASession) (users : List AuthClass.AUser) (sid : String),
      sessions.find? (fun s => s._id == sid) = none →
      AuthClass.validateSession sessions users sid =
        .error "TypeError: cannot read user_id of null") ∧
    (∀ (sessions : List AuthClass.ASession) (users : List AuthClass.AUser) (sid : String),
      AuthClass.validateSession sessions users sid = .ok none ↔
        ∃ s, sessions.find? (fun t => t._id == sid) = some s ∧
          users.find? (fun u => u._id == s.user_id) = none) := by
  constructor
  · intro sessions users sid h
    simp [AuthClass.validateSession, h]
  · intro sessions users sid
    cases hs : sessions.find? (fun t => t._id == sid) with
    | none => simp [AuthClass.validateSession, hs]
    | some s =>
      cases hu : users.find? (fun u => u._id == s.user_id) with
      | none =>
        simp only [AuthClass.validateSession, hs, hu]
        constructor
        · intro _
          exact ⟨s, rfl, hu⟩
        · intro _
          trivial
      | some u =>
        simp only [AuthClass.validateSession, hs, hu]
        constructor
        · intro h
          simp at h
        · rintro ⟨s', hs', hu'⟩
          obtain rfl : s = s' := Option.some.inj hs'
          rw [hu] at hu'
          exact absurd hu' (by simp)

/-- Witness for C10: an empty session store makes the call reject, and a
session bound to a missing user makes it return null. -/
theorem auth_validateSession_absent_rejects_witness :
    AuthClass.validateSession [] [] "s1" = .error "TypeError: cannot read user_id of null" ∧
    AuthClass.validateSession [⟨"s1", "u1", 5⟩] [] "s1" = .ok none :=
  ⟨auth_validateSession_absent_rejects.1 [] [] "s1" rfl,
    (auth_validateSession_absent_rejects.2 [⟨"s1", "u1", 5⟩] [] "s1").mpr
      ⟨⟨"s1", "u1", 5⟩, rfl, rfl⟩⟩

end SveltyCMS
